import Mathlib

/-!
Verification of the credential-lifecycle and authorization core of the
aws-s3-file-manager backend (server.js).  The JavaScript module state
(s3Client, tokenExpirationTime, isInitialized) is embedded as an explicit
ServerState record threaded through the functions; the STS AssumeRole
exchange and the S3 backend are oracles passed as parameters; request
handlers return the final state, the HTTP response envelope, and the number
of storage-backend calls issued.
-/

/-- ASCII lower-casing of a string, modelling the JavaScript
String.prototype.toLowerCase as applied to the email strings of this
application (Char.toLower from core Lean is exactly the ASCII lowering). -/
def lowerStr (s : String) : String := ⟨s.data.map Char.toLower⟩

/-- JavaScript String.prototype.trim, modelled on the character list:
whitespace stripped from both ends. -/
def jsTrim (s : String) : String :=
  ⟨((s.data.dropWhile Char.isWhitespace).reverse.dropWhile Char.isWhitespace).reverse⟩

/-- JavaScript String.prototype.includes: substring containment. -/
def strIncludes (s pat : String) : Bool := decide (pat.data <:+: s.data)

/-- A JavaScript error value as consulted by the server: its name, message
and (AWS SDK) Code fields. -/
structure JsError where
  name : String
  message : String
  code : String
deriving DecidableEq

/-- The HTTP response envelope: status code plus the error field of the JSON
body (empty string on the success paths). -/
structure Response where
  status : Nat
  error : String
deriving DecidableEq

/-- The storage client handle: either built from temporary assumed-role
credentials (identified by the STS exchange result) or directly from the
long-lived key pair. -/
inductive Client where
  | assumed (creds : Nat)
  | direct
deriving DecidableEq

/-- The module-level mutable state of server.js: s3Client,
tokenExpirationTime (milliseconds) and isInitialized. -/
structure ServerState where
  s3Client : Option Client
  tokenExpirationTime : Option Nat
  isInitialized : Bool
deriving DecidableEq

/-- The state at process start: s3Client = null, tokenExpirationTime = null,
isInitialized = false. -/
def initialServerState : ServerState := ⟨none, none, false⟩

/-- AWS_CONFIG as read from the environment. -/
structure AWSConfig where
  region : String
  accessKeyId : String
  secretAccessKey : String
  roleArn : Option String
  bucketName : String
  sessionName : String

def tokenRefreshRequiredKind : String := "TokenRefreshRequired"
def tokenHasExpiredMsg : String := "token has expired"
def securityTokenExpiredMsg : String := "security token included in the request is expired"
def expiredTokenCode : String := "ExpiredToken"
def durationExceedsMsg : String := "DurationSeconds exceeds"
def tokenExpiredKind : String := "TOKEN_EXPIRED"
def awsInitFailedKind : String := "AWS_INITIALIZATION_FAILED"
def successKind : String := ""
def failedAssumeMsg : String := "Failed to assume role"
def plainErrorName : String := "Error"
def emptyStr : String := ""

/-- server.js areTokensExpired: false when tokenExpirationTime is null, else
Date.now() > tokenExpirationTime. -/
def areTokensExpired (st : ServerState) (now : Nat) : Bool :=
  match st.tokenExpirationTime with
  | none => false
  | some t => decide (t < now)

/-- The condition of handleExpiredTokenError: the error is of the
expired-token class by name, message substring, Code, or because the passive
expiry clock has passed. -/
def isExpiredTokenError (e : JsError) (st : ServerState) (now : Nat) : Bool :=
  e.name == tokenRefreshRequiredKind ||
  strIncludes e.message tokenHasExpiredMsg ||
  strIncludes e.message securityTokenExpiredMsg ||
  e.code == tokenRefreshRequiredKind ||
  e.code == expiredTokenCode ||
  areTokensExpired st now

/-- server.js handleExpiredTokenError: when the error is classified as
expired, clear s3Client, reset isInitialized and answer 401 TOKEN_EXPIRED;
otherwise return null (none) so the caller falls through to its 500 path. -/
def handleExpiredTokenError (st : ServerState) (now : Nat) (e : JsError) :
    Option (ServerState × Response) :=
  if isExpiredTokenError e st now then
    some ({ st with s3Client := none, isInitialized := false }, ⟨401, tokenExpiredKind⟩)
  else
    none

/-- The hardcoded candidate session durations of initializeS3Client, in
source order: 900, 1800, 3600 seconds (the code comment reads: try different
session durations starting with the shortest). -/
def durations : List Nat := [900, 1800, 3600]

/-- The error thrown when the loop exhausts without any response and without
a recorded lastError: throw lastError or new Error(..). -/
def assumeRoleFallbackError : JsError := ⟨plainErrorName, failedAssumeMsg, emptyStr⟩

/-- The for-loop over durations in initializeS3Client.  sts is the
AssumeRole exchange: for a requested duration it yields either temporary
credentials or an error.  On an error whose message contains
"DurationSeconds exceeds" the next candidate is tried (recording lastError);
any other error is rethrown at once.  Returns the outcome (credentials with
the duration that succeeded, or the thrown error) together with the list of
durations actually requested, in order. -/
def tryDurations (sts : Nat → Except JsError Nat) :
    List Nat → Option JsError → Except JsError (Nat × Nat) × List Nat
  | [], lastError => (Except.error (lastError.getD assumeRoleFallbackError), [])
  | d :: rest, lastError =>
    match sts d with
    | Except.ok creds => (Except.ok (creds, d), [d])
    | Except.error e =>
      if strIncludes e.message durationExceedsMsg then
        let r := tryDurations sts rest (some e)
        (r.1, d :: r.2)
      else
        (Except.error e, [d])

/-- The outcome of initializeS3Client: the module state afterwards, the
thrown error if any (none means the function returned true), and whether a
provisioning attempt was actually performed (false exactly on the fast path
reusing the existing client). -/
structure InitResult where
  state : ServerState
  error : Option JsError
  attempted : Bool
deriving DecidableEq

/-- server.js initializeS3Client.  Fast path: isInitialized and s3Client
set and tokens not expired.  Otherwise, with a roleArn configured, run the
duration loop: on success store the client built from the temporary
credentials and record tokenExpirationTime = now + duration * 1000; on
failure the catch block clears s3Client and isInitialized and rethrows.
Without a roleArn, build the client from the long-lived keys and clear
tokenExpirationTime (permanent credentials). -/
def initializeS3Client (cfg : AWSConfig) (sts : Nat → Except JsError Nat)
    (now : Nat) (st : ServerState) : InitResult :=
  if st.isInitialized && st.s3Client.isSome && !areTokensExpired st now then
    ⟨st, none, false⟩
  else
    match cfg.roleArn with
    | some _ =>
      match (tryDurations sts durations none).1 with
      | Except.ok (creds, d) =>
        ⟨⟨some (Client.assumed creds), some (now + d * 1000), true⟩, none, true⟩
      | Except.error e =>
        ⟨⟨none, st.tokenExpirationTime, false⟩, some e, true⟩
    | none =>
      ⟨⟨some Client.direct, none, true⟩, none, true⟩

/-- server.js ensureS3Client middleware: when not initialized or the tokens
are expired, run initializeS3Client; a throw is answered with 500
AWS_INITIALIZATION_FAILED, otherwise the request proceeds (none). -/
def ensureS3Client (cfg : AWSConfig) (sts : Nat → Except JsError Nat)
    (now : Nat) (st : ServerState) : ServerState × Option Response :=
  if !st.isInitialized || areTokensExpired st now then
    let r := initializeS3Client cfg sts now st
    match r.error with
    | none => (r.state, none)
    | some _ => (r.state, some ⟨500, awsInitFailedKind⟩)
  else
    (st, none)

/-- GET /api/s3/test: middleware chain [ensureS3Client] only, then one
ListObjectsV2 call.  backend gives the outcome of the n-th storage call of
this request (the handler makes exactly one).  Returns the final module
state, the response, and the number of storage calls issued. -/
def apiS3Test (cfg : AWSConfig) (sts : Nat → Except JsError Nat)
    (backend : Nat → Except JsError Unit) (now : Nat) (st : ServerState) :
    ServerState × Response × Nat :=
  match ensureS3Client cfg sts now st with
  | (st2, some resp) => (st2, resp, 0)
  | (st2, none) =>
    match backend 0 with
    | Except.ok _ => (st2, ⟨200, successKind⟩, 1)
    | Except.error e =>
      match handleExpiredTokenError st2 now e with
      | some (st3, resp) => (st3, resp, 1)
      | none => (st2, ⟨500, e.message⟩, 1)

/-- The prefix normalization of the listing handlers: append a slash when
the query value is nonempty and does not already end in one. -/
def normalizeDirPath (p : String) : String :=
  if p != emptyStr && !(p.data.getLastD ' ' == '/') then p ++ "/" else p

/-- GET /api/s3/folders: middleware chain [ensureS3Client] only — the route
carries the request identity (production flag and x-user-email header) but
no authorization middleware consults it.  One ListObjectsV2 call with the
normalized prefix and a delimiter. -/
def apiS3Folders (production : Bool) (headerEmail : Option String)
    (cfg : AWSConfig) (sts : Nat → Except JsError Nat) (pfx : String)
    (backend : String → Except JsError Unit) (now : Nat) (st : ServerState) :
    ServerState × Response × Nat :=
  match ensureS3Client cfg sts now st with
  | (st2, some resp) => (st2, resp, 0)
  | (st2, none) =>
    match backend (normalizeDirPath pfx) with
    | Except.ok _ => (st2, ⟨200, successKind⟩, 1)
    | Except.error e =>
      match handleExpiredTokenError st2 now e with
      | some (st3, resp) => (st3, resp, 1)
      | none => (st2, ⟨500, e.message⟩, 1)

/-- GET /api/s3/files: middleware chain [ensureS3Client] only, same shape as
the folders route (ListObjectsV2 without delimiter). -/
def apiS3Files (production : Bool) (headerEmail : Option String)
    (cfg : AWSConfig) (sts : Nat → Except JsError Nat) (pfx : String)
    (backend : String → Except JsError Unit) (now : Nat) (st : ServerState) :
    ServerState × Response × Nat :=
  match ensureS3Client cfg sts now st with
  | (st2, some resp) => (st2, resp, 0)
  | (st2, none) =>
    match backend (normalizeDirPath pfx) with
    | Except.ok _ => (st2, ⟨200, successKind⟩, 1)
    | Except.error e =>
      match handleExpiredTokenError st2 now e with
      | some (st3, resp) => (st3, resp, 1)
      | none => (st2, ⟨500, e.message⟩, 1)

/-- An entry of the authorized-users allow-list (data/authorized-users.json). -/
structure AuthUser where
  email : String
  role : String
  addedAt : Nat
  addedBy : String
deriving DecidableEq, Inhabited

def adminRoleStr : String := "admin"
def userRoleStr : String := "user"
def unauthorizedKind : String := "UNAUTHORIZED"
def accessDeniedKind : String := "ACCESS_DENIED"
def adminRequiredKind : String := "ADMIN_REQUIRED"
def invalidEmailKind : String := "INVALID_EMAIL"
def invalidRoleKind : String := "INVALID_ROLE"
def userExistsKind : String := "USER_EXISTS"
def userNotFoundKind : String := "USER_NOT_FOUND"
def cannotDemoteSelfKind : String := "CANNOT_DEMOTE_SELF"
def cannotDeleteSelfKind : String := "CANNOT_DELETE_SELF"
def defaultAdminEmail : String := "admin@turing.com"
def systemStr : String := "system"

/-- The hardcoded identity attached in non-production mode. -/
def devDefaultUser : AuthUser := ⟨defaultAdminEmail, adminRoleStr, 0, emptyStr⟩

/-- The default allow-list written by initializeAuthorizedUsersFile. -/
def initialAuthorizedUsers : List AuthUser := [⟨defaultAdminEmail, adminRoleStr, 0, systemStr⟩]

/-- server.js checkUserAuthorization middleware: outside production attach
the hardcoded admin identity; in production, a missing x-user-email header
is answered 401 UNAUTHORIZED, an email with no case-insensitive match in
the allow-list is answered 403 ACCESS_DENIED, otherwise the matching entry
is attached to the request. -/
def checkUserAuthorization (production : Bool) (headerEmail : Option String)
    (users : List AuthUser) : Except Response AuthUser :=
  if !production then
    Except.ok devDefaultUser
  else
    match headerEmail with
    | none => Except.error ⟨401, unauthorizedKind⟩
    | some em =>
      match users.find? (fun u => lowerStr u.email == lowerStr em) with
      | none => Except.error ⟨403, accessDeniedKind⟩
      | some u => Except.ok u

/-- server.js requireAdmin middleware: reject with 403 ADMIN_REQUIRED unless
the attached role is admin. -/
def requireAdmin (user : AuthUser) : Option Response :=
  if user.role != adminRoleStr then some ⟨403, adminRequiredKind⟩ else none

/-- POST /api/s3/upload: middleware chain [checkUserAuthorization,
ensureS3Client, multer], then the handler checks the file is present and
issues one PutObject call.  The activity logging of the handler is not
modelled (it does not touch the module state or the response status). -/
def apiS3Upload (production : Bool) (headerEmail : Option String)
    (users : List AuthUser) (cfg : AWSConfig) (sts : Nat → Except JsError Nat)
    (hasFile : Bool) (backend : Nat → Except JsError Unit) (now : Nat)
    (st : ServerState) : ServerState × Response × Nat :=
  match checkUserAuthorization production headerEmail users with
  | Except.error resp => (st, resp, 0)
  | Except.ok _ =>
    match ensureS3Client cfg sts now st with
    | (st2, some resp) => (st2, resp, 0)
    | (st2, none) =>
      if !hasFile then
        (st2, ⟨400, "No file provided"⟩, 0)
      else
        match backend 0 with
        | Except.ok _ => (st2, ⟨200, successKind⟩, 1)
        | Except.error e =>
          match handleExpiredTokenError st2 now e with
          | some (st3, resp) => (st3, resp, 1)
          | none => (st2, ⟨500, e.message⟩, 1)

/-- POST /api/users/authorized handler body (after the gates): validate the
email and role, reject a case-insensitive duplicate with 409 USER_EXISTS,
otherwise append the normalized entry.  Returns the resulting allow-list
and the response. -/
def addAuthorizedUser (users : List AuthUser) (requester : AuthUser)
    (email : Option String) (role : Option String) (now : Nat) :
    List AuthUser × Response :=
  match email with
  | none => (users, ⟨400, invalidEmailKind⟩)
  | some em =>
    if jsTrim em == emptyStr then
      (users, ⟨400, invalidEmailKind⟩)
    else
      match role with
      | none => (users, ⟨400, invalidRoleKind⟩)
      | some r =>
        if !(r == adminRoleStr || r == userRoleStr) then
          (users, ⟨400, invalidRoleKind⟩)
        else
          match users.find? (fun u => lowerStr u.email == lowerStr (jsTrim em)) with
          | some _ => (users, ⟨409, userExistsKind⟩)
          | none =>
            (users ++ [⟨lowerStr (jsTrim em), r, now, requester.email⟩], ⟨200, successKind⟩)

/-- PUT /api/users/authorized/:email handler body (after the gates): the
target email from the path is lowercased; an invalid role is 400, an
unknown target 404; an admin lowering its own role away from admin is 400
CANNOT_DEMOTE_SELF with the list untouched; otherwise the role of the found
entry is overwritten. -/
def updateAuthorizedUserRole (users : List AuthUser) (requester : AuthUser)
    (targetEmailRaw : String) (role : Option String) :
    List AuthUser × Response :=
  match role with
  | none => (users, ⟨400, invalidRoleKind⟩)
  | some r =>
    if !(r == adminRoleStr || r == userRoleStr) then
      (users, ⟨400, invalidRoleKind⟩)
    else
      match users.findIdx? (fun u => lowerStr u.email == lowerStr targetEmailRaw) with
      | none => (users, ⟨404, userNotFoundKind⟩)
      | some i =>
        if lowerStr targetEmailRaw == lowerStr requester.email && r != adminRoleStr then
          (users, ⟨400, cannotDemoteSelfKind⟩)
        else
          (users.set i { users.getD i default with role := r }, ⟨200, successKind⟩)

/-- DELETE /api/users/authorized/:email handler body (after the gates): a
requester targeting its own (lowercased) email is 400 CANNOT_DELETE_SELF
before any lookup; an unknown target is 404; otherwise the entry is spliced
out. -/
def deleteAuthorizedUser (users : List AuthUser) (requester : AuthUser)
    (targetEmailRaw : String) : List AuthUser × Response :=
  if lowerStr targetEmailRaw == lowerStr requester.email then
    (users, ⟨400, cannotDeleteSelfKind⟩)
  else
    match users.findIdx? (fun u => lowerStr u.email == lowerStr targetEmailRaw) with
    | none => (users, ⟨404, userNotFoundKind⟩)
    | some i => (users.eraseIdx i, ⟨200, successKind⟩)

/-- POST /api/users/authorized with its full middleware chain
[checkUserAuthorization, requireAdmin] in front of the add handler. -/
def apiUsersAuthorizedPost (production : Bool) (headerEmail : Option String)
    (users : List AuthUser) (email : Option String) (role : Option String)
    (now : Nat) : List AuthUser × Response :=
  match checkUserAuthorization production headerEmail users with
  | Except.error resp => (users, resp)
  | Except.ok user =>
    match requireAdmin user with
    | some resp => (users, resp)
    | none => addAuthorizedUser users user email role now

/-- One evolution step of the persisted allow-list: any add, role-update or
delete request reaching the corresponding handler, with arbitrary requester
and arguments. -/
inductive UsersStep : List AuthUser → List AuthUser → Prop where
  | add (users : List AuthUser) (requester : AuthUser) (email role : Option String)
      (now : Nat) : UsersStep users (addAuthorizedUser users requester email role now).1
  | update (users : List AuthUser) (requester : AuthUser) (target : String)
      (role : Option String) :
      UsersStep users (updateAuthorizedUserRole users requester target role).1
  | delete (users : List AuthUser) (requester : AuthUser) (target : String) :
      UsersStep users (deleteAuthorizedUser users requester target).1

/-- Case-insensitive uniqueness of the allow-list emails. -/
def usersUnique (users : List AuthUser) : Prop :=
  (users.map fun u => lowerStr u.email).Nodup

/-- Counting variant of repeated ensureFresh calls: run initializeS3Client
at each time of the list in order, threading the state, and count how many
calls actually performed a provisioning attempt (fast-path reuses count
zero). -/
def ensureFreshTrace (cfg : AWSConfig) (sts : Nat → Except JsError Nat) :
    List Nat → ServerState → ServerState × Nat
  | [], st => (st, 0)
  | t :: ts, st =>
    let r := initializeS3Client cfg sts t st
    let rest := ensureFreshTrace cfg sts ts r.state
    (rest.1, (if r.attempted then 1 else 0) + rest.2)

theorem charToNat_ofNat (n : Nat) (h : n.isValidChar) : (Char.ofNat n).toNat = n := by
  rw [Char.ofNat, dif_pos h]
  simp [Char.ofNatAux, Char.toNat, UInt32.toNat, BitVec.toNat_ofNatLt]

theorem charToLower_idem (c : Char) : c.toLower.toLower = c.toLower := by
  by_cases h : c.toNat ≥ 65 ∧ c.toNat ≤ 90
  · have hv : Nat.isValidChar (c.toNat + 32) := by left; omega
    have h1 : c.toLower = Char.ofNat (c.toNat + 32) := by
      simp only [Char.toLower, if_pos h]
    have h2 : (Char.ofNat (c.toNat + 32)).toNat = c.toNat + 32 := charToNat_ofNat _ hv
    rw [h1]
    simp only [Char.toLower, h2]
    rw [if_neg (by omega)]
  · simp only [Char.toLower, if_neg h]

theorem lowerStr_idem (s : String) : lowerStr (lowerStr s) = lowerStr s := by
  unfold lowerStr
  simp only [List.map_map]
  congr 1
  apply List.map_congr_left
  intro c _
  simpa using charToLower_idem c

theorem init_fast_path (cfg : AWSConfig) (sts : Nat → Except JsError Nat)
    (now : Nat) (st : ServerState) (h1 : st.isInitialized = true)
    (h2 : st.s3Client.isSome = true) (h3 : areTokensExpired st now = false) :
    initializeS3Client cfg sts now st = ⟨st, none, false⟩ := by
  unfold initializeS3Client
  rw [if_pos]
  rw [h1, h2, h3]
  rfl

theorem init_attempted_of_not_init (cfg : AWSConfig)
    (sts : Nat → Except JsError Nat) (now : Nat) (st : ServerState)
    (h : st.isInitialized = false) :
    (initializeS3Client cfg sts now st).attempted = true := by
  unfold initializeS3Client
  rw [if_neg (by simp [h])]
  cases cfg.roleArn with
  | none => rfl
  | some arn =>
    cases htr : (tryDurations sts durations none).1 with
    | ok v => cases v; rfl
    | error e => rfl

theorem init_success_props (cfg : AWSConfig) (sts : Nat → Except JsError Nat)
    (now : Nat) (st st1 : ServerState) (att : Bool)
    (h : initializeS3Client cfg sts now st = ⟨st1, none, att⟩) :
    st1.isInitialized = true ∧ st1.s3Client.isSome = true := by
  unfold initializeS3Client at h
  by_cases hc : (st.isInitialized && st.s3Client.isSome && !areTokensExpired st now) = true
  · rw [if_pos hc] at h
    cases h
    simp only [Bool.and_eq_true] at hc
    exact ⟨hc.1.1, hc.1.2⟩
  · rw [if_neg hc] at h
    cases hr : cfg.roleArn with
    | none =>
      rw [hr] at h
      cases h
      exact ⟨rfl, rfl⟩
    | some arn =>
      rw [hr] at h
      cases htr : (tryDurations sts durations none).1 with
      | ok v =>
        rw [htr] at h
        cases v
        cases h
        exact ⟨rfl, rfl⟩
      | error e =>
        rw [htr] at h
        cases h

theorem trace_fresh (cfg : AWSConfig) (sts : Nat → Except JsError Nat)
    (ts : List Nat) (st : ServerState) (h1 : st.isInitialized = true)
    (h2 : st.s3Client.isSome = true)
    (hfresh : ∀ t ∈ ts, areTokensExpired st t = false) :
    ensureFreshTrace cfg sts ts st = (st, 0) := by
  induction ts with
  | nil => rfl
  | cons t ts ih =>
    unfold ensureFreshTrace
    rw [init_fast_path cfg sts t st h1 h2 (hfresh t (by simp))]
    simp only
    rw [ih (fun t2 ht2 => hfresh t2 (by simp [ht2]))]
    simp

/-- Claim C6: fresh-lease idempotence.  Starting cold, the first ensureFresh
call provisions the lease; then for every list of subsequent call times at
which the lease is not past its (possibly null) expiry, the whole call
sequence performs exactly one provisioning attempt in total and ends in the
very state the first call created; moreover each single later call returns
the existing lease unchanged without provisioning. -/
theorem c6_fresh_lease_idempotent (cfg : AWSConfig)
    (sts : Nat → Except JsError Nat) (t0 : Nat) (ts : List Nat)
    (st1 : ServerState)
    (hinit : initializeS3Client cfg sts t0 initialServerState = ⟨st1, none, true⟩)
    (hfresh : ∀ t ∈ ts, areTokensExpired st1 t = false) :
    ensureFreshTrace cfg sts (t0 :: ts) initialServerState = (st1, 1) ∧
    (∀ t2, areTokensExpired st1 t2 = false →
      initializeS3Client cfg sts t2 st1 = ⟨st1, none, false⟩) := by
  obtain ⟨hi, hc⟩ := init_success_props cfg sts t0 initialServerState st1 true hinit
  constructor
  · unfold ensureFreshTrace
    rw [hinit]
    simp only
    rw [trace_fresh cfg sts ts st1 hi hc hfresh]
    simp
  · intro t2 ht2
    exact init_fast_path cfg sts t2 st1 hi hc ht2

def cfgDemo : AWSConfig :=
  ⟨"us-east-1", "AKIAEXAMPLE", "secretExample", some "arn:aws:iam::123:role/s3mgr", "bucket", "S3FileManagerSession"⟩

def stsAlwaysOk : Nat → Except JsError Nat := fun _ => Except.ok 7

/-- Witness for C6 at a concrete run: cold start at time 0, then two calls
before the recorded expiry; one provisioning attempt in total. -/
theorem c6_witness :
    ensureFreshTrace cfgDemo stsAlwaysOk (0 :: [100, 200]) initialServerState =
      (⟨some (Client.assumed 7), some 900000, true⟩, 1) :=
  (c6_fresh_lease_idempotent cfgDemo stsAlwaysOk 0 [100, 200]
    ⟨some (Client.assumed 7), some 900000, true⟩ (by decide) (by decide)).1

/-- Claim C7: reactive invalidation.  Whenever a storage error is classified
as expired-token, handleExpiredTokenError immediately clears the cached
client handle and resets the initialized flag while answering 401
TOKEN_EXPIRED, and every later pass through the client cache performs a
fresh provisioning attempt instead of reusing the stale client. -/
theorem c7_reactive_invalidation (st : ServerState) (now : Nat) (e : JsError)
    (h : isExpiredTokenError e st now = true) :
    handleExpiredTokenError st now e =
      some ({ st with s3Client := none, isInitialized := false },
        ⟨401, tokenExpiredKind⟩) ∧
    (∀ cfg sts now2,
      (initializeS3Client cfg sts now2
        { st with s3Client := none, isInitialized := false }).attempted = true) := by
  constructor
  · unfold handleExpiredTokenError
    rw [if_pos h]
  · intro cfg sts now2
    exact init_attempted_of_not_init cfg sts now2 _ rfl

/-- Witness for C7: a concrete backend error with Code ExpiredToken against
a live lease. -/
theorem c7_witness :
    handleExpiredTokenError ⟨some (Client.assumed 7), some 900000, true⟩ 100
      ⟨"Error", "The security token included in the request is expired", "ExpiredToken"⟩ =
      some (⟨none, some 900000, false⟩, ⟨401, tokenExpiredKind⟩) :=
  (c7_reactive_invalidation ⟨some (Client.assumed 7), some 900000, true⟩ 100
    ⟨"Error", "The security token included in the request is expired", "ExpiredToken"⟩
    (by decide)).1

/-- Claim C8: provisioning-failure atomicity.  Whenever initializeS3Client
throws, the retained state has a null client handle and a cleared
initialized flag (any prior lease is discarded), and every subsequent
ensureFresh call performs a provisioning attempt from scratch. -/
theorem c8_provisioning_failure_atomic (cfg : AWSConfig)
    (sts : Nat → Except JsError Nat) (now : Nat) (st st2 : ServerState)
    (e : JsError) (att : Bool)
    (h : initializeS3Client cfg sts now st = ⟨st2, some e, att⟩) :
    st2.s3Client = none ∧ st2.isInitialized = false ∧
    (∀ cfg2 sts2 now2, (initializeS3Client cfg2 sts2 now2 st2).attempted = true) := by
  unfold initializeS3Client at h
  by_cases hc : (st.isInitialized && st.s3Client.isSome && !areTokensExpired st now) = true
  · rw [if_pos hc] at h
    cases h
  · rw [if_neg hc] at h
    cases hr : cfg.roleArn with
    | none =>
      rw [hr] at h
      cases h
    | some arn =>
      rw [hr] at h
      cases htr : (tryDurations sts durations none).1 with
      | ok v =>
        rw [htr] at h
        cases v
        cases h
      | error e2 =>
        rw [htr] at h
        cases h
        refine ⟨rfl, rfl, ?_⟩
        intro cfg2 sts2 now2
        exact init_attempted_of_not_init cfg2 sts2 now2 _ rfl

def stsAlwaysDenied : Nat → Except JsError Nat :=
  fun _ => Except.error ⟨"AccessDenied", "User is not authorized to perform sts:AssumeRole", "AccessDenied"⟩

/-- Witness for C8: a concrete run in which the role assumption is rejected
while a prior (expired) lease was cached; the next concrete call attempts
provisioning again. -/
theorem c8_witness :
    (⟨none, some 400, false⟩ : ServerState).s3Client = none ∧
    (⟨none, some 400, false⟩ : ServerState).isInitialized = false ∧
    (initializeS3Client cfgDemo stsAlwaysOk 600 ⟨none, some 400, false⟩).attempted = true :=
  ⟨(c8_provisioning_failure_atomic cfgDemo stsAlwaysDenied 500
      ⟨some (Client.assumed 3), some 400, true⟩ ⟨none, some 400, false⟩
      ⟨"AccessDenied", "User is not authorized to perform sts:AssumeRole", "AccessDenied"⟩
      true (by decide)).1,
   (c8_provisioning_failure_atomic cfgDemo stsAlwaysDenied 500
      ⟨some (Client.assumed 3), some 400, true⟩ ⟨none, some 400, false⟩
      ⟨"AccessDenied", "User is not authorized to perform sts:AssumeRole", "AccessDenied"⟩
      true (by decide)).2.1,
   (c8_provisioning_failure_atomic cfgDemo stsAlwaysDenied 500
      ⟨some (Client.assumed 3), some 400, true⟩ ⟨none, some 400, false⟩
      ⟨"AccessDenied", "User is not authorized to perform sts:AssumeRole", "AccessDenied"⟩
      true (by decide)).2.2 cfgDemo stsAlwaysOk 600⟩

/-- Claim C10: the expired-token classification also consults the passive
expiry clock — after the recorded expiry instant has passed, every storage
error, whatever its name, code or message, is classified as token-expired:
the cached client is invalidated and the request is answered 401
TOKEN_EXPIRED. -/
theorem c10_passive_clock_classification (e : JsError) (st : ServerState)
    (now tExp : Nat) (h1 : st.tokenExpirationTime = some tExp)
    (h2 : tExp < now) :
    handleExpiredTokenError st now e =
      some ({ st with s3Client := none, isInitialized := false },
        ⟨401, tokenExpiredKind⟩) := by
  have hexp : areTokensExpired st now = true := by
    unfold areTokensExpired
    rw [h1]
    simpa using h2
  have hcls : isExpiredTokenError e st now = true := by
    unfold isExpiredTokenError
    rw [hexp]
    simp
  unfold handleExpiredTokenError
  rw [if_pos hcls]

/-- Witness for C10: an unrelated AccessDenied backend error arriving after
the expiry instant is reported as an expired session. -/
theorem c10_witness :
    handleExpiredTokenError ⟨some (Client.assumed 7), some 100, true⟩ 200
      ⟨"AccessDenied", "Access Denied", "AccessDenied"⟩ =
      some (⟨none, some 100, false⟩, ⟨401, tokenExpiredKind⟩) :=
  c10_passive_clock_classification ⟨"AccessDenied", "Access Denied", "AccessDenied"⟩
    ⟨some (Client.assumed 7), some 100, true⟩ 200 100 rfl (by decide)

/-- Counterexample to claim C1 as stated: the candidate durations are not
taken descending from 3600.  With an exchange that would accept every
duration (so 3600 would succeed), the only requested duration is 900 — not
3600 — and the resulting lease records the 900-second expiry. -/
theorem c1_counterexample :
    (tryDurations stsAlwaysOk durations none).2 = [900] ∧
    [900] ≠ [3600] ∧
    initializeS3Client cfgDemo stsAlwaysOk 0 initialServerState =
      ⟨⟨some (Client.assumed 7), some 900000, true⟩, none, true⟩ := by
  refine ⟨by decide, by decide, by decide⟩

/-- Claim C1 as amended: the candidate list is ascending — 900 first, then
1800, then 3600.  An attempt failing with a DurationSeconds-exceeds class
error is followed by the next larger candidate; any other failure aborts
immediately; if some candidate succeeds the provisioned lease records that
exact duration expiry (now + duration * 1000); if every candidate fails the
whole provisioning throws (the last error). -/
theorem c1_duration_fallback_amended (sts : Nat → Except JsError Nat)
    (c : Nat) (e1 e2 e3 : JsError) (arn : String) (cfg : AWSConfig)
    (st : ServerState) (now d : Nat) :
    (sts 900 = Except.ok c →
      tryDurations sts durations none = (Except.ok (c, 900), [900])) ∧
    (sts 900 = Except.error e1 → strIncludes e1.message durationExceedsMsg = true →
      sts 1800 = Except.ok c →
      tryDurations sts durations none = (Except.ok (c, 1800), [900, 1800])) ∧
    (sts 900 = Except.error e1 → strIncludes e1.message durationExceedsMsg = true →
      sts 1800 = Except.error e2 → strIncludes e2.message durationExceedsMsg = true →
      sts 3600 = Except.ok c →
      tryDurations sts durations none = (Except.ok (c, 3600), [900, 1800, 3600])) ∧
    (sts 900 = Except.error e1 → strIncludes e1.message durationExceedsMsg = true →
      sts 1800 = Except.error e2 → strIncludes e2.message durationExceedsMsg = true →
      sts 3600 = Except.error e3 →
      (tryDurations sts durations none).1 = Except.error e3) ∧
    (sts 900 = Except.error e1 → strIncludes e1.message durationExceedsMsg = false →
      tryDurations sts durations none = (Except.error e1, [900])) ∧
    (cfg.roleArn = some arn → st.isInitialized = false →
      (tryDurations sts durations none).1 = Except.ok (c, d) →
      initializeS3Client cfg sts now st =
        ⟨⟨some (Client.assumed c), some (now + d * 1000), true⟩, none, true⟩) ∧
    (cfg.roleArn = some arn → st.isInitialized = false →
      (tryDurations sts durations none).1 = Except.error e1 →
      initializeS3Client cfg sts now st =
        ⟨⟨none, st.tokenExpirationTime, false⟩, some e1, true⟩) := by
  refine ⟨?_, ?_, ?_, ?_, ?_, ?_, ?_⟩
  · intro h9
    simp [durations, tryDurations, h9]
  · intro h9 hm9 h18
    simp [durations, tryDurations, h9, hm9, h18]
  · intro h9 hm9 h18 hm18 h36
    simp [durations, tryDurations, h9, hm9, h18, hm18, h36]
  · intro h9 hm9 h18 hm18 h36
    by_cases hm36 : strIncludes e3.message durationExceedsMsg = true
    · simp [durations, tryDurations, h9, hm9, h18, hm18, h36, hm36]
    · simp only [Bool.not_eq_true] at hm36
      simp [durations, tryDurations, h9, hm9, h18, hm18, h36, hm36]
  · intro h9 hm9
    simp [durations, tryDurations, h9, hm9]
  · intro hr hi htr
    unfold initializeS3Client
    rw [if_neg (by simp [hi]), hr, htr]
  · intro hr hi htr
    unfold initializeS3Client
    rw [if_neg (by simp [hi]), hr, htr]

def durExceedsDemoError : JsError :=
  ⟨"ValidationError", "The requested DurationSeconds exceeds the MaxSessionDuration set for this role.", emptyStr⟩

def stsOnlyHourDemo : Nat → Except JsError Nat :=
  fun d => if d == 3600 then Except.ok 7 else Except.error durExceedsDemoError

/-- Witness for the amended C1: 900 and 1800 fail with the duration-exceeds
class error, 3600 succeeds, and the trace is the ascending [900, 1800, 3600]. -/
theorem c1_witness :
    tryDurations stsOnlyHourDemo durations none =
      (Except.ok (7, 3600), [900, 1800, 3600]) :=
  (c1_duration_fallback_amended stsOnlyHourDemo 7 durExceedsDemoError
    durExceedsDemoError durExceedsDemoError "arn" cfgDemo initialServerState 0
    3600).2.2.1 rfl (by decide) rfl (by decide) rfl

def expiredBackendError : JsError :=
  ⟨"ExpiredTokenException", "The security token included in the request is expired", "ExpiredToken"⟩

/-- The backend of the C2 counterexample run: the first storage call of the
request reports an expired token; any further call would succeed. -/
def backendExpiredOnceDemo : Nat → Except JsError Unit :=
  fun i => if i == 0 then Except.error expiredBackendError else Except.ok ()

def freshLeaseDemo : ServerState := ⟨some (Client.assumed 5), some 1000000, true⟩

/-- Counterexample to claim C2 as stated: the core does not transparently
retry a storage operation whose backend call reports an expired token.  On
a request whose first backend call fails expired and whose second call
would succeed, the caller is answered 401 TOKEN_EXPIRED (not a success),
and exactly one backend call is issued — no retry happens inside the
request. -/
theorem c2_counterexample :
    (apiS3Test cfgDemo stsAlwaysOk backendExpiredOnceDemo 500 freshLeaseDemo).2.1.status ≠ 200 ∧
    (apiS3Test cfgDemo stsAlwaysOk backendExpiredOnceDemo 500 freshLeaseDemo).2.1 =
      ⟨401, tokenExpiredKind⟩ ∧
    (apiS3Test cfgDemo stsAlwaysOk backendExpiredOnceDemo 500 freshLeaseDemo).2.2 = 1 := by
  refine ⟨by decide, by decide, by decide⟩

/-- Claim C2 as amended: when a storage operation with a fresh lease fails
with an expired-token class error, the request issues exactly one backend
call, force-invalidates the lease and answers the caller 401 TOKEN_EXPIRED;
no in-request retry occurs, and re-provisioning happens on the next request
through the client cache. -/
theorem c2_no_retry_amended (cfg : AWSConfig) (sts : Nat → Except JsError Nat)
    (backend : Nat → Except JsError Unit) (now : Nat) (st : ServerState)
    (e : JsError) (hinit : st.isInitialized = true)
    (hfresh : areTokensExpired st now = false)
    (herr : backend 0 = Except.error e)
    (hexp : isExpiredTokenError e st now = true) :
    apiS3Test cfg sts backend now st =
      ({ st with s3Client := none, isInitialized := false },
        ⟨401, tokenExpiredKind⟩, 1) ∧
    (∀ cfg2 sts2 now2,
      (initializeS3Client cfg2 sts2 now2
        { st with s3Client := none, isInitialized := false }).attempted = true) := by
  constructor
  · unfold apiS3Test
    unfold ensureS3Client
    rw [if_neg (by simp [hinit, hfresh])]
    simp [herr, handleExpiredTokenError, hexp]
  · intro cfg2 sts2 now2
    exact init_attempted_of_not_init cfg2 sts2 now2 _ rfl

/-- Witness for the amended C2 at the concrete counterexample run. -/
theorem c2_witness :
    apiS3Test cfgDemo stsAlwaysOk backendExpiredOnceDemo 500 freshLeaseDemo =
      (⟨none, some 1000000, false⟩, ⟨401, tokenExpiredKind⟩, 1) :=
  (c2_no_retry_amended cfgDemo stsAlwaysOk backendExpiredOnceDemo 500
    freshLeaseDemo expiredBackendError rfl (by decide) rfl (by decide)).1

def backendListOkDemo : String → Except JsError Unit := fun _ => Except.ok ()

def backendPutOkDemo : Nat → Except JsError Unit := fun _ => Except.ok ()

def dataDirDemo : String := "data"

/-- Counterexample to claim C3 as stated: the folders and files listing
routes carry no authorization middleware.  In production mode, a request
with no identity header at all still reaches the listing storage call (one
call issued) and is answered 200 — it is not rejected. -/
theorem c3_counterexample :
    apiS3Folders true none cfgDemo stsAlwaysOk dataDirDemo backendListOkDemo 500 freshLeaseDemo =
      (freshLeaseDemo, ⟨200, successKind⟩, 1) ∧
    apiS3Files true none cfgDemo stsAlwaysOk dataDirDemo backendListOkDemo 500 freshLeaseDemo =
      (freshLeaseDemo, ⟨200, successKind⟩, 1) ∧
    (apiS3Folders true none cfgDemo stsAlwaysOk dataDirDemo backendListOkDemo 500 freshLeaseDemo).2.2 ≠ 0 := by
  refine ⟨by decide, by decide, by decide⟩

/-- Claim C3 as amended: the read/list storage endpoints are not gated at
all — their result is independent of the caller identity (production flag
and identity header), and once the client middleware passes, the listing
storage call is always issued; the Authorization Gate instead guards the
mutation endpoints, where a request failing the gate never reaches the
storage call. -/
theorem c3_list_ungated_amended (p1 p2 : Bool) (h1 h2 : Option String)
    (cfg : AWSConfig) (sts : Nat → Except JsError Nat) (pfx : String)
    (backend : String → Except JsError Unit) (now : Nat) (st : ServerState)
    (users : List AuthUser) (hasFile : Bool) (backend2 : Nat → Except JsError Unit)
    (hinit : st.isInitialized = true)
    (hfresh : areTokensExpired st now = false) :
    apiS3Folders p1 h1 cfg sts pfx backend now st =
      apiS3Folders p2 h2 cfg sts pfx backend now st ∧
    apiS3Files p1 h1 cfg sts pfx backend now st =
      apiS3Files p2 h2 cfg sts pfx backend now st ∧
    (apiS3Folders p1 h1 cfg sts pfx backend now st).2.2 = 1 ∧
    (apiS3Files p1 h1 cfg sts pfx backend now st).2.2 = 1 ∧
    apiS3Upload true none users cfg sts hasFile backend2 now st =
      (st, ⟨401, unauthorizedKind⟩, 0) := by
  have hmw : ensureS3Client cfg sts now st = (st, none) := by
    unfold ensureS3Client
    rw [if_neg (by simp [hinit, hfresh])]
  have hfolders : (apiS3Folders p1 h1 cfg sts pfx backend now st).2.2 = 1 := by
    unfold apiS3Folders
    rw [hmw]
    cases hb : backend (normalizeDirPath pfx) with
    | ok v => rfl
    | error e =>
      simp only
      cases hh : handleExpiredTokenError st now e with
      | none => rfl
      | some p => cases p; rfl
  have hfiles : (apiS3Files p1 h1 cfg sts pfx backend now st).2.2 = 1 := by
    unfold apiS3Files
    rw [hmw]
    cases hb : backend (normalizeDirPath pfx) with
    | ok v => rfl
    | error e =>
      simp only
      cases hh : handleExpiredTokenError st now e with
      | none => rfl
      | some p => cases p; rfl
  refine ⟨rfl, rfl, hfolders, hfiles, rfl⟩

/-- Witness for the amended C3 at the concrete counterexample request. -/
theorem c3_witness :
    apiS3Folders true none cfgDemo stsAlwaysOk dataDirDemo backendListOkDemo 500 freshLeaseDemo =
      apiS3Folders false (some defaultAdminEmail) cfgDemo stsAlwaysOk dataDirDemo backendListOkDemo 500 freshLeaseDemo ∧
    (apiS3Folders true none cfgDemo stsAlwaysOk dataDirDemo backendListOkDemo 500 freshLeaseDemo).2.2 = 1 :=
  ⟨(c3_list_ungated_amended true false none (some defaultAdminEmail) cfgDemo
      stsAlwaysOk dataDirDemo backendListOkDemo 500 freshLeaseDemo
      initialAuthorizedUsers true backendPutOkDemo rfl (by decide)).1,
   (c3_list_ungated_amended true false none (some defaultAdminEmail) cfgDemo
      stsAlwaysOk dataDirDemo backendListOkDemo 500 freshLeaseDemo
      initialAuthorizedUsers true backendPutOkDemo rfl (by decide)).2.2.1⟩

/-- Claim C4: fail-closed authorization in production mode.  With no
identity header the gate answers 401 UNAUTHORIZED; with an identity absent
from the allow-list (case-insensitive) it answers 403 ACCESS_DENIED; in
both cases the gate yields an error rather than attaching any default
principal, the gated storage route issues zero storage calls, and the gated
admin route leaves the allow-list untouched and never runs its handler. -/
theorem c4_fail_closed (users : List AuthUser) (em : String)
    (cfg : AWSConfig) (sts : Nat → Except JsError Nat) (hasFile : Bool)
    (backend : Nat → Except JsError Unit) (now : Nat) (st : ServerState)
    (email role : Option String) (nowA : Nat)
    (hnone : ∀ u ∈ users, lowerStr u.email ≠ lowerStr em) :
    checkUserAuthorization true none users = Except.error ⟨401, unauthorizedKind⟩ ∧
    checkUserAuthorization true (some em) users = Except.error ⟨403, accessDeniedKind⟩ ∧
    apiS3Upload true none users cfg sts hasFile backend now st =
      (st, ⟨401, unauthorizedKind⟩, 0) ∧
    apiS3Upload true (some em) users cfg sts hasFile backend now st =
      (st, ⟨403, accessDeniedKind⟩, 0) ∧
    apiUsersAuthorizedPost true none users email role nowA =
      (users, ⟨401, unauthorizedKind⟩) ∧
    apiUsersAuthorizedPost true (some em) users email role nowA =
      (users, ⟨403, accessDeniedKind⟩) := by
  have hfind : users.find? (fun u => lowerStr u.email == lowerStr em) = none := by
    apply List.find?_eq_none.mpr
    intro u hu
    simp [hnone u hu]
  have hmiss : checkUserAuthorization true none users = Except.error ⟨401, unauthorizedKind⟩ := rfl
  have hdeny : checkUserAuthorization true (some em) users = Except.error ⟨403, accessDeniedKind⟩ := by
    unfold checkUserAuthorization
    rw [if_neg (by simp)]
    simp only [hfind]
  refine ⟨hmiss, hdeny, ?_, ?_, ?_, ?_⟩
  · unfold apiS3Upload
    rw [hmiss]
  · unfold apiS3Upload
    rw [hdeny]
  · unfold apiUsersAuthorizedPost
    rw [hmiss]
  · unfold apiUsersAuthorizedPost
    rw [hdeny]

def strangerEmailDemo : String := "stranger@example.com"

/-- Witness for C4 at the default allow-list and a concrete unknown email. -/
theorem c4_witness :
    checkUserAuthorization true none initialAuthorizedUsers =
      Except.error ⟨401, unauthorizedKind⟩ ∧
    checkUserAuthorization true (some strangerEmailDemo) initialAuthorizedUsers =
      Except.error ⟨403, accessDeniedKind⟩ ∧
    apiS3Upload true none initialAuthorizedUsers cfgDemo stsAlwaysOk true
      backendPutOkDemo 500 freshLeaseDemo = (freshLeaseDemo, ⟨401, unauthorizedKind⟩, 0) ∧
    apiS3Upload true (some strangerEmailDemo) initialAuthorizedUsers cfgDemo
      stsAlwaysOk true backendPutOkDemo 500 freshLeaseDemo =
      (freshLeaseDemo, ⟨403, accessDeniedKind⟩, 0) ∧
    apiUsersAuthorizedPost true none initialAuthorizedUsers (some strangerEmailDemo)
      (some userRoleStr) 5 = (initialAuthorizedUsers, ⟨401, unauthorizedKind⟩) ∧
    apiUsersAuthorizedPost true (some strangerEmailDemo) initialAuthorizedUsers
      (some strangerEmailDemo) (some userRoleStr) 5 =
      (initialAuthorizedUsers, ⟨403, accessDeniedKind⟩) :=
  c4_fail_closed initialAuthorizedUsers strangerEmailDemo cfgDemo stsAlwaysOk
    true backendPutOkDemo 500 freshLeaseDemo (some strangerEmailDemo)
    (some userRoleStr) 5 (by decide)

/-- Claim C5: self-lockout prevention.  An admin principal present in the
allow-list that targets its own entry is rejected — deletion with 400
CANNOT_DELETE_SELF, demotion to the user role with 400 CANNOT_DEMOTE_SELF —
and in both cases the returned allow-list is exactly the input list. -/
theorem c5_self_lockout (users : List AuthUser) (requester : AuthUser)
    (raw : String) (hadmin : requester.role = adminRoleStr)
    (hraw : lowerStr raw = lowerStr requester.email)
    (hmem : ∃ u ∈ users, lowerStr u.email = lowerStr requester.email) :
    deleteAuthorizedUser users requester raw = (users, ⟨400, cannotDeleteSelfKind⟩) ∧
    updateAuthorizedUserRole users requester raw (some userRoleStr) =
      (users, ⟨400, cannotDemoteSelfKind⟩) := by
  constructor
  · unfold deleteAuthorizedUser
    rw [if_pos (by simp [hraw])]
  · have hvalid : (!(userRoleStr == adminRoleStr || userRoleStr == userRoleStr)) = false := by
      decide
    have hself : (lowerStr raw == lowerStr requester.email && userRoleStr != adminRoleStr) = true := by
      simp [hraw]
      decide
    have hsome : (users.findIdx? (fun u => lowerStr u.email == lowerStr raw)).isSome = true := by
      rw [List.findIdx?_isSome, List.any_eq_true]
      obtain ⟨u, hu, hue⟩ := hmem
      exact ⟨u, hu, by simp [hue, hraw]⟩
    obtain ⟨i, hi⟩ := Option.isSome_iff_exists.mp hsome
    unfold updateAuthorizedUserRole
    simp [hvalid, hi, hself]

/-- Witness for C5: the default admin targeting itself. -/
theorem c5_witness :
    deleteAuthorizedUser initialAuthorizedUsers ⟨defaultAdminEmail, adminRoleStr, 0, systemStr⟩
      defaultAdminEmail = (initialAuthorizedUsers, ⟨400, cannotDeleteSelfKind⟩) ∧
    updateAuthorizedUserRole initialAuthorizedUsers ⟨defaultAdminEmail, adminRoleStr, 0, systemStr⟩
      defaultAdminEmail (some userRoleStr) = (initialAuthorizedUsers, ⟨400, cannotDemoteSelfKind⟩) :=
  c5_self_lockout initialAuthorizedUsers ⟨defaultAdminEmail, adminRoleStr, 0, systemStr⟩
    defaultAdminEmail rfl rfl
    ⟨⟨defaultAdminEmail, adminRoleStr, 0, systemStr⟩, by simp [initialAuthorizedUsers], rfl⟩

theorem nodup_append_singleton {α : Type} (l : List α) (a : α) (h : l.Nodup)
    (h2 : a ∉ l) : (l ++ [a]).Nodup := by
  refine List.Nodup.append h (by simp) ?_
  intro x hx hxm
  simp only [List.mem_singleton] at hxm
  exact h2 (hxm ▸ hx)

theorem map_set_role (l : List AuthUser) (i : Nat) (r : String) (d : AuthUser) :
    ((l.set i { l.getD i d with role := r }).map fun u => lowerStr u.email) =
      l.map fun u => lowerStr u.email := by
  induction l generalizing i with
  | nil => rfl
  | cons u t ih =>
    cases i with
    | zero =>
      simp only [List.getD_cons_zero, List.set_cons_zero, List.map_cons]
    | succ j =>
      simp only [List.getD_cons_succ, List.set_cons_succ, List.map_cons]
      rw [ih j]

theorem addAuthorizedUser_unique (users : List AuthUser) (requester : AuthUser)
    (email role : Option String) (now : Nat) (h : usersUnique users) :
    usersUnique (addAuthorizedUser users requester email role now).1 := by
  unfold addAuthorizedUser
  repeat' split
  any_goals exact h
  rename_i em r hvalid hf
  unfold usersUnique at h ⊢
  simp only [List.map_append, List.map_cons, List.map_nil]
  refine nodup_append_singleton _ _ h ?_
  intro hmem
  simp only [List.mem_map] at hmem
  obtain ⟨u, hu, hue⟩ := hmem
  have hfn := List.find?_eq_none.mp hf u hu
  simp only [beq_eq_false_iff_ne, ne_eq] at hfn
  apply hfn
  rw [hue]
  simp [lowerStr_idem]

theorem updateAuthorizedUserRole_unique (users : List AuthUser)
    (requester : AuthUser) (target : String) (role : Option String)
    (h : usersUnique users) :
    usersUnique (updateAuthorizedUserRole users requester target role).1 := by
  unfold updateAuthorizedUserRole
  repeat' split
  any_goals exact h
  unfold usersUnique at h ⊢
  rw [map_set_role]
  exact h

theorem deleteAuthorizedUser_unique (users : List AuthUser)
    (requester : AuthUser) (target : String) (h : usersUnique users) :
    usersUnique (deleteAuthorizedUser users requester target).1 := by
  unfold deleteAuthorizedUser
  repeat' split
  any_goals exact h
  rename_i i hi
  unfold usersUnique at h ⊢
  exact List.Nodup.sublist (List.Sublist.map _ (List.eraseIdx_sublist users i)) h

theorem usersStep_unique (s s2 : List AuthUser) (h : usersUnique s)
    (hs : UsersStep s s2) : usersUnique s2 := by
  cases hs with
  | add requester email role now =>
    exact addAuthorizedUser_unique s requester email role now h
  | update requester target role =>
    exact updateAuthorizedUserRole_unique s requester target role h
  | delete requester target =>
    exact deleteAuthorizedUser_unique s requester target h

/-- Claim C9: allow-list uniqueness invariant.  Every state reachable from
the default allow-list through the add, role-update and delete handlers has
pairwise case-insensitively distinct emails, and an add request (passing
the field validations) whose email case-insensitively matches an existing
entry is answered 409 USER_EXISTS with the allow-list unchanged. -/
theorem c9_allowlist_unique :
    (∀ s, Relation.ReflTransGen UsersStep initialAuthorizedUsers s → usersUnique s) ∧
    (∀ (users : List AuthUser) (requester : AuthUser) (em r : String)
      (now : Nat) (u : AuthUser),
      (jsTrim em == emptyStr) = false → (r == adminRoleStr || r == userRoleStr) = true →
      users.find? (fun v => lowerStr v.email == lowerStr (jsTrim em)) = some u →
      addAuthorizedUser users requester (some em) (some r) now =
        (users, ⟨409, userExistsKind⟩)) := by
  constructor
  · intro s h
    induction h with
    | refl =>
      unfold usersUnique
      decide
    | tail hab hbc ih => exact usersStep_unique _ _ ih hbc
  · intro users requester em r now u hne hrole hf
    unfold addAuthorizedUser
    simp [hne, hrole, hf]

def dupCasedEmailDemo : String := "Admin@Turing.Com"

/-- Witness for C9: the initial allow-list is unique, and adding the default
admin again under a different casing is answered 409 with the list
unchanged. -/
theorem c9_witness :
    usersUnique initialAuthorizedUsers ∧
    addAuthorizedUser initialAuthorizedUsers devDefaultUser (some dupCasedEmailDemo)
      (some userRoleStr) 5 = (initialAuthorizedUsers, ⟨409, userExistsKind⟩) :=
  ⟨c9_allowlist_unique.1 initialAuthorizedUsers Relation.ReflTransGen.refl,
   c9_allowlist_unique.2 initialAuthorizedUsers devDefaultUser dupCasedEmailDemo
     userRoleStr 5 ⟨defaultAdminEmail, adminRoleStr, 0, systemStr⟩
     (by decide) (by decide) (by decide)⟩
